import Mathlib

/-!
# Verification of the inventory/invoicing reconciliation core

Shallow embedding of `backend/inventory/models.py`, `serializers.py` and
`views.py` (the invoice posting, totals, stock, loan-payment and ledger
logic). Django `Decimal` money values are embedded as `Money := Int`, an
exact integer count of decimal hundredths: the active code path only ever
adds, subtracts, compares and multiplies money by integer quantities (the
tax feature is inert), all of which are scale-invariant, so fixed-point
integers model `Decimal` exactly. `IntegerField` quantities are embedded
as `Int` (the ORM writes bypass the `MinValueValidator`, so negative
values are representable, as in the database). Date/time columns and free-text-only columns that no claim
depends on are omitted. Persistence is modelled as an explicit `Store`
value threaded through the workflow functions; `transaction.atomic` is
modelled by returning the caller's store unchanged when the body fails
(the storage layer's documented rollback semantics).
-/

/-- Python slicing `s[:n]` on a string. -/
def pyTake (s : String) (n : Nat) : String := String.mk (s.data.take n)

/-- Python `s.upper()` (character-wise, length preserving). -/
def pyUpper (s : String) : String := String.mk (s.data.map Char.toUpper)

/-- Python `s.strip().lower()` used to normalise product names. -/
def pyStripLower (s : String) : String := String.mk (s.trim.data.map Char.toLower)

/-- Money: a `Decimal` value as an exact integer count of hundredths. -/
abbrev Money := Int

/-! ## Product (`models.Product`) -/

structure Product where
  name : String
  unit : String
  quantity : Int
  price : Money
  sale_price : Money
  supplier : Option Nat
  status : String
  low_stock_threshold : Int
  description : String
deriving DecidableEq, Repr

/-- `Product.save`: recompute the derived `status` from `quantity` versus
`low_stock_threshold`, then persist. -/
def Product.save (p : Product) : Product :=
  if p.quantity = 0 then { p with status := "out_of_stock" }
  else if p.quantity ≤ p.low_stock_threshold then { p with status := "low_stock" }
  else { p with status := "in_stock" }

/-! ## Sales invoices (`models.SalesInvoice`, `models.SalesInvoiceItem`,
`models.SalesLoanPayment`) -/

structure SalesInvoice where
  invoice_id : String
  customer : Nat
  subtotal : Money
  tax_rate : Money
  tax_amount : Money
  total : Money
  notes : String
  is_loan : Bool
  amount_paid : Money
  remaining_balance : Money
  payment_status : String
deriving DecidableEq, Repr

structure SalesInvoiceItem where
  quantity : Int
  price : Money
  total : Money
deriving DecidableEq, Repr

structure SalesLoanPayment where
  amount : Money
  notes : String
deriving DecidableEq, Repr

/-- `SalesInvoice.calculate_totals`: recompute subtotal/tax/total from the
invoice's current line items, then derive `remaining_balance` and
`payment_status` from `amount_paid`. `items` is the row set
`self.salesinvoiceitem_set.all()`. -/
def SalesInvoice.calculate_totals (inv : SalesInvoice) (items : List SalesInvoiceItem) :
    SalesInvoice :=
  let subtotal := (items.map (fun i => i.total)).sum
  let inv := { inv with subtotal := subtotal, tax_amount := 0, total := subtotal }
  let inv := { inv with remaining_balance := inv.total - inv.amount_paid }
  if inv.amount_paid ≥ inv.total then
    { inv with payment_status := "paid", remaining_balance := 0 }
  else if inv.amount_paid > 0 then
    { inv with payment_status := "partial" }
  else
    { inv with payment_status := "unpaid" }

/-- `SalesInvoice.add_payment`: validate, append a `SalesLoanPayment`
record, bump `amount_paid` and rerun `calculate_totals`. The Python
raises `ValueError` before any mutation, so the error outcome returns the
arguments unchanged together with the error message. -/
def SalesInvoice.add_payment (inv : SalesInvoice) (items : List SalesInvoiceItem)
    (loan_payments : List SalesLoanPayment) (amount : Money) (notes : String) :
    SalesInvoice × List SalesLoanPayment × Option String :=
  if inv.is_loan = false then
    (inv, loan_payments, some "Cannot add payment to non-loan invoice")
  else if amount ≤ 0 then
    (inv, loan_payments, some "Payment amount must be positive")
  else if inv.amount_paid + amount > inv.total then
    (inv, loan_payments, some "Payment amount exceeds remaining balance")
  else
    let loan_payments := loan_payments ++ [{ amount := amount, notes := notes }]
    let inv := { inv with amount_paid := inv.amount_paid + amount }
    (inv.calculate_totals items, loan_payments, none)

/-- `SalesInvoiceItem.save`: set the line total, then (unless skipped)
decrement the product's stock and persist it, and (unless skipped)
recalculate the invoice's totals over its current row set
`invoiceItems`. -/
def SalesInvoiceItem.save (item : SalesInvoiceItem) (product : Product)
    (invoice : SalesInvoice) (invoiceItems : List SalesInvoiceItem)
    (skip_product_update skip_invoice_update : Bool) :
    SalesInvoiceItem × Product × SalesInvoice :=
  let item := { item with total := item.quantity * item.price }
  let product :=
    if skip_product_update then product
    else Product.save { product with quantity := product.quantity - item.quantity }
  let invoice :=
    if skip_invoice_update then invoice
    else invoice.calculate_totals invoiceItems
  (item, product, invoice)

/-! ## Purchase invoices (`models.PurchaseInvoice`,
`models.PurchaseInvoiceItem`, `models.PurchaseLoanPayment`) -/

structure PurchaseInvoice where
  invoice_id : String
  supplier : Nat
  subtotal : Money
  tax_rate : Money
  tax_amount : Money
  total : Money
  notes : String
  is_loan : Bool
  amount_paid : Money
  remaining_balance : Money
  payment_status : String
deriving DecidableEq, Repr

structure PurchaseInvoiceItem where
  quantity : Int
  price : Money
  total : Money
deriving DecidableEq, Repr

structure PurchaseLoanPayment where
  amount : Money
  notes : String
deriving DecidableEq, Repr

/-- `PurchaseInvoice.calculate_totals` (same computation as the sales
version, over `self.purchaseinvoiceitem_set.all()`). -/
def PurchaseInvoice.calculate_totals (inv : PurchaseInvoice)
    (items : List PurchaseInvoiceItem) : PurchaseInvoice :=
  let subtotal := (items.map (fun i => i.total)).sum
  let inv := { inv with subtotal := subtotal, tax_amount := 0, total := subtotal }
  let inv := { inv with remaining_balance := inv.total - inv.amount_paid }
  if inv.amount_paid ≥ inv.total then
    { inv with payment_status := "paid", remaining_balance := 0 }
  else if inv.amount_paid > 0 then
    { inv with payment_status := "partial" }
  else
    { inv with payment_status := "unpaid" }

/-- `PurchaseInvoice.add_payment` (mirror of the sales version). -/
def PurchaseInvoice.add_payment (inv : PurchaseInvoice)
    (items : List PurchaseInvoiceItem) (loan_payments : List PurchaseLoanPayment)
    (amount : Money) (notes : String) :
    PurchaseInvoice × List PurchaseLoanPayment × Option String :=
  if inv.is_loan = false then
    (inv, loan_payments, some "Cannot add payment to non-loan invoice")
  else if amount ≤ 0 then
    (inv, loan_payments, some "Payment amount must be positive")
  else if inv.amount_paid + amount > inv.total then
    (inv, loan_payments, some "Payment amount exceeds remaining balance")
  else
    let loan_payments := loan_payments ++ [{ amount := amount, notes := notes }]
    let inv := { inv with amount_paid := inv.amount_paid + amount }
    (inv.calculate_totals items, loan_payments, none)

/-- `PurchaseInvoiceItem.save`: set the line total, then (unless skipped)
increment the product's stock and persist it, and (unless skipped)
recalculate the invoice totals. -/
def PurchaseInvoiceItem.save (item : PurchaseInvoiceItem) (product : Product)
    (invoice : PurchaseInvoice) (invoiceItems : List PurchaseInvoiceItem)
    (skip_product_update skip_invoice_update : Bool) :
    PurchaseInvoiceItem × Product × PurchaseInvoice :=
  let item := { item with total := item.quantity * item.price }
  let product :=
    if skip_product_update then product
    else Product.save { product with quantity := product.quantity + item.quantity }
  let invoice :=
    if skip_invoice_update then invoice
    else invoice.calculate_totals invoiceItems
  (item, product, invoice)

/-! ## Ledgers (`models.CustomerLedger`, `models.SupplierLedger` and their
transaction logs) -/

structure CustomerLedgerTransaction where
  transaction_type : String
  amount : Money
  description : String
deriving DecidableEq, Repr

structure CustomerLedger where
  current_balance : Money
  total_sales : Money
  total_payments : Money
  credit_limit : Money
deriving DecidableEq, Repr

structure SupplierLedgerTransaction where
  transaction_type : String
  amount : Money
  description : String
deriving DecidableEq, Repr

structure SupplierLedger where
  current_balance : Money
  total_purchases : Money
  total_payments : Money
deriving DecidableEq, Repr

/-- `CustomerLedger.update_balance`: refold the full transaction log into
`current_balance`, `total_sales` and `total_payments`. -/
def CustomerLedger.update_balance (l : CustomerLedger)
    (transactions : List CustomerLedgerTransaction) : CustomerLedger :=
  { l with
    current_balance := (transactions.map (fun t =>
      if t.transaction_type = "sale" ∨ t.transaction_type = "interest" then t.amount
      else -t.amount)).sum
    total_sales := ((transactions.filter
      (fun t => t.transaction_type = "sale")).map (fun t => t.amount)).sum
    total_payments := ((transactions.filter
      (fun t => t.transaction_type = "payment")).map (fun t => t.amount)).sum }

/-- `SupplierLedger.update_balance` (mirror, with `purchase` in place of
`sale`). -/
def SupplierLedger.update_balance (l : SupplierLedger)
    (transactions : List SupplierLedgerTransaction) : SupplierLedger :=
  { l with
    current_balance := (transactions.map (fun t =>
      if t.transaction_type = "purchase" ∨ t.transaction_type = "interest" then t.amount
      else -t.amount)).sum
    total_purchases := ((transactions.filter
      (fun t => t.transaction_type = "purchase")).map (fun t => t.amount)).sum
    total_payments := ((transactions.filter
      (fun t => t.transaction_type = "payment")).map (fun t => t.amount)).sum }

/-- The three-way payment-status rule of `calculate_totals`, as a named
function (spec §4.1 reads it off the same `if`/`elif`/`else` chain). -/
def paymentStatusRule (amount_paid total : Money) : String :=
  if amount_paid ≥ total then "paid"
  else if amount_paid > 0 then "partial"
  else "unpaid"

/-- The signed contribution of one ledger transaction, written from the
spec's words: sale/purchase and interest add, payment, return, discount
and adjustment subtract (other strings are not valid transaction types,
so they contribute nothing here). -/
def specSignedContribution : String → Money → Money
  | "sale", a => a
  | "purchase", a => a
  | "interest", a => a
  | "payment", a => -a
  | "return", a => -a
  | "discount", a => -a
  | "adjustment", a => -a
  | _, _ => 0

/-! ## Persistent store

All tables the posting workflow touches, with numeric surrogate keys.
The claims quantify over one counterparty at a time, so a single customer
ledger and a single supplier ledger (each with its transaction log) are
carried; `create_ledger_transaction`'s `get_or_create` always finds it. -/

structure SalesItemRow where
  invoice : Nat
  product : Nat
  item : SalesInvoiceItem
deriving DecidableEq, Repr

structure PurchaseItemRow where
  invoice : Nat
  product : Nat
  item : PurchaseInvoiceItem
deriving DecidableEq, Repr

structure Store where
  products : List (Nat × Product)
  nextProductId : Nat
  salesInvoices : List (Nat × SalesInvoice)
  nextSalesId : Nat
  salesItems : List SalesItemRow
  purchaseInvoices : List (Nat × PurchaseInvoice)
  nextPurchaseId : Nat
  purchaseItems : List PurchaseItemRow
  customerTransactions : List CustomerLedgerTransaction
  customerLedger : CustomerLedger
  supplierTransactions : List SupplierLedgerTransaction
  supplierLedger : SupplierLedger
deriving DecidableEq, Repr

def lookupProduct (s : Store) (pid : Nat) : Option Product :=
  (s.products.find? (fun q => q.1 = pid)).map (fun q => q.2)

def updateProduct (s : Store) (pid : Nat) (p : Product) : Store :=
  { s with products := s.products.map (fun q => if q.1 = pid then (pid, p) else q) }

def salesItemsOf (s : Store) (invId : Nat) : List SalesInvoiceItem :=
  (s.salesItems.filter (fun r => r.invoice = invId)).map (fun r => r.item)

def setSalesInvoice (s : Store) (invId : Nat) (inv : SalesInvoice) : Store :=
  { s with salesInvoices :=
      s.salesInvoices.map (fun q => if q.1 = invId then (invId, inv) else q) }

def purchaseItemsOf (s : Store) (invId : Nat) : List PurchaseInvoiceItem :=
  (s.purchaseItems.filter (fun r => r.invoice = invId)).map (fun r => r.item)

def setPurchaseInvoice (s : Store) (invId : Nat) (inv : PurchaseInvoice) : Store :=
  { s with purchaseInvoices :=
      s.purchaseInvoices.map (fun q => if q.1 = invId then (invId, inv) else q) }

/-- Keys already allocated lie below the id counters, and item rows only
reference allocated invoices (true of every store the workflows build). -/
def Store.WF (s : Store) : Prop :=
  (∀ q ∈ s.products, q.1 < s.nextProductId)
  ∧ (∀ q ∈ s.salesInvoices, q.1 < s.nextSalesId)
  ∧ (∀ r ∈ s.salesItems, r.invoice < s.nextSalesId)
  ∧ (∀ q ∈ s.purchaseInvoices, q.1 < s.nextPurchaseId)
  ∧ (∀ r ∈ s.purchaseItems, r.invoice < s.nextPurchaseId)

instance (s : Store) : Decidable s.WF := by
  unfold Store.WF; infer_instance

/-- `SalesInvoice.create_ledger_transaction`: append a `sale` transaction
for the full total, a `payment` transaction when `amount_paid > 0`, then
`update_balance` over the ledger's full log. -/
def SalesInvoice.create_ledger_transaction (inv : SalesInvoice) (s : Store) : Store :=
  let txns := s.customerTransactions ++
    [{ transaction_type := "sale", amount := inv.total,
       description := "Sale Invoice " ++ inv.invoice_id }]
  let txns :=
    if inv.amount_paid > 0 then
      txns ++ [{ transaction_type := "payment", amount := inv.amount_paid,
                 description := "Payment for Invoice " ++ inv.invoice_id }]
    else txns
  { s with customerTransactions := txns,
           customerLedger := s.customerLedger.update_balance txns }

/-- `PurchaseInvoice.create_ledger_transaction` (mirror, on the supplier
ledger with a `purchase` transaction). -/
def PurchaseInvoice.create_ledger_transaction (inv : PurchaseInvoice) (s : Store) : Store :=
  let txns := s.supplierTransactions ++
    [{ transaction_type := "purchase", amount := inv.total,
       description := "Purchase Invoice " ++ inv.invoice_id }]
  let txns :=
    if inv.amount_paid > 0 then
      txns ++ [{ transaction_type := "payment", amount := inv.amount_paid,
                 description := "Payment for Invoice " ++ inv.invoice_id }]
    else txns
  { s with supplierTransactions := txns,
           supplierLedger := s.supplierLedger.update_balance txns }

/-! ## Invoice display-id generation
(`CreateSalesInvoiceSerializer.create` lines 105-130 and
`CreatePurchaseInvoiceSerializer.create` lines 262-288). `uuidHex` models
the `uuid.uuid4().hex` draw of the ultimate fallback. -/

def productDescOf (product_names : List String) : String :=
  match product_names with
  | [n] => pyTake n 15
  | [] => ""
  | [a, b] => pyTake a 10 ++ ", " ++ pyTake b 10
  | n :: rest => pyTake n 10 ++ " +" ++ toString rest.length

def generateSalesInvoiceId (product_names : List String) (customer_name : String)
    (uuidHex : String) : String :=
  let customer_short := pyTake customer_name 15
  let invoice_id := "S: " ++ productDescOf product_names ++ " → " ++ customer_short
  if invoice_id.length > 50 then
    let invoice_id :=
      "S: " ++ pyTake (product_names.headD "") 10 ++ " → " ++ pyTake customer_name 10
    if invoice_id.length > 50 then "SALE-" ++ pyUpper (pyTake uuidHex 8)
    else invoice_id
  else invoice_id

def generatePurchaseInvoiceId (product_names : List String) (supplier_name : String)
    (uuidHex : String) : String :=
  let supplier_short := pyTake supplier_name 15
  let invoice_id := "P: " ++ productDescOf product_names ++ " ← " ++ supplier_short
  if invoice_id.length > 50 then
    let invoice_id :=
      "P: " ++ pyTake (product_names.headD "") 10 ++ " ← " ++ pyTake supplier_name 10
    if invoice_id.length > 50 then "PUR-" ++ pyUpper (pyTake uuidHex 8)
    else invoice_id
  else invoice_id

/-! ## Invoice creation workflows -/

/-- Requested line item `{product, quantity, price}`. `price = none`
models a value `Decimal(str(price))` rejects (`InvalidOperation`). -/
structure SalesItemInput where
  product : Nat
  quantity : Int
  price : Option Money
deriving DecidableEq, Repr

structure SalesInput where
  customer : Nat
  customerName : String
  notes : String
  is_loan : Bool
  amount_paid : Money
  items : List SalesItemInput
deriving DecidableEq, Repr

structure PurchaseItemInput where
  product : Nat
  quantity : Int
  price : Option Money
deriving DecidableEq, Repr

structure PurchaseInput where
  supplier : Nat
  supplierName : String
  notes : String
  is_loan : Bool
  amount_paid : Money
  items : List PurchaseItemInput
deriving DecidableEq, Repr

/-- How an invoice-creation attempt fails. `validation` is a DRF
`serializers.ValidationError`; the others are raw exceptions
(`IntegrityError`, `DoesNotExist`, decimal `InvalidOperation`). -/
inductive CreateErr
  | validation : String → CreateErr
  | integrity : CreateErr
  | notFound : CreateErr
  | invalidOperation : CreateErr
deriving DecidableEq, Repr

def CreateErr.message : CreateErr → String
  | .validation m => m
  | .integrity => "IntegrityError"
  | .notFound => "Product matching query does not exist."
  | .invalidOperation => "InvalidOperation"

/-- The pre-`try` product-name lookups of the serializers. -/
def salesProductNames (s : Store) : List SalesItemInput → Option (List String)
  | [] => some []
  | d :: rest =>
    match lookupProduct s d.product with
    | none => none
    | some p => (salesProductNames s rest).map (fun ns => p.name :: ns)

def purchaseProductNames (s : Store) : List PurchaseItemInput → Option (List String)
  | [] => some []
  | d :: rest =>
    match lookupProduct s d.product with
    | none => none
    | some p => (purchaseProductNames s rest).map (fun ns => p.name :: ns)

/-- The invoice header as `SalesInvoice.objects.create(**validated_data)`
persists it (model defaults for the derived fields, `tax_rate` forced to
0 by the serializer). -/
def initialSalesInvoice (invoiceId : String) (input : SalesInput) : SalesInvoice :=
  { invoice_id := invoiceId, customer := input.customer, subtotal := 0,
    tax_rate := 0, tax_amount := 0, total := 0, notes := input.notes,
    is_loan := input.is_loan, amount_paid := input.amount_paid,
    remaining_balance := 0, payment_status := "paid" }

def initialPurchaseInvoice (invoiceId : String) (input : PurchaseInput) : PurchaseInvoice :=
  { invoice_id := invoiceId, supplier := input.supplier, subtotal := 0,
    tax_rate := 0, tax_amount := 0, total := 0, notes := input.notes,
    is_loan := input.is_loan, amount_paid := input.amount_paid,
    remaining_balance := 0, payment_status := "paid" }

/-- `SalesInvoiceItem.objects.create(...)` inside the creation loops:
the item `save` with no skip flags — write the row with its line total,
decrement and persist the product, recalculate the invoice over its
current rows — returning the new store and the recalculated in-memory
invoice. -/
def salesItemStep (s : Store) (invId : Nat) (inv : SalesInvoice) (pid : Nat)
    (product : Product) (qty : Int) (price : Money) : Store × SalesInvoice :=
  let item : SalesInvoiceItem := { quantity := qty, price := price, total := qty * price }
  let s1 := { s with salesItems :=
    s.salesItems ++ [{ invoice := invId, product := pid, item := item }] }
  let product1 := Product.save { product with quantity := product.quantity - qty }
  let s2 := updateProduct s1 pid product1
  let inv1 := inv.calculate_totals (salesItemsOf s2 invId)
  (setSalesInvoice s2 invId inv1, inv1)

/-- `PurchaseInvoiceItem.objects.create(...)` (mirror: stock increment). -/
def purchaseItemStep (s : Store) (invId : Nat) (inv : PurchaseInvoice) (pid : Nat)
    (product : Product) (qty : Int) (price : Money) : Store × PurchaseInvoice :=
  let item : PurchaseInvoiceItem := { quantity := qty, price := price, total := qty * price }
  let s1 := { s with purchaseItems :=
    s.purchaseItems ++ [{ invoice := invId, product := pid, item := item }] }
  let product1 := Product.save { product with quantity := product.quantity + qty }
  let s2 := updateProduct s1 pid product1
  let inv1 := inv.calculate_totals (purchaseItemsOf s2 invId)
  (setPurchaseInvoice s2 invId inv1, inv1)

/-- Per-item body of the validated sales path: stock check, price
validation, then `SalesInvoiceItem.objects.create` (whose `save` sets the
line total, decrements and persists the product, and recalculates the
invoice). -/
def salesItemsLoop (s : Store) (invId : Nat) (inv : SalesInvoice) :
    List SalesItemInput → Except CreateErr (Store × SalesInvoice)
  | [] => .ok (s, inv)
  | d :: rest =>
    match lookupProduct s d.product with
    | none => .error .notFound
    | some product =>
      if product.quantity < d.quantity then
        .error (.validation ("Insufficient stock for " ++ product.name))
      else
        match d.price with
        | none => .error (.validation ("Invalid price format for " ++ product.name))
        | some price =>
          if price ≤ 0 then
            .error (.validation ("Price must be greater than 0 for " ++ product.name))
          else
            let r := salesItemStep s invId inv d.product product d.quantity price
            salesItemsLoop r.1 invId r.2 rest

/-- Body of the sales `transaction.atomic` block: header insert (raising
`IntegrityError` on a display-id collision), item loop, final
`calculate_totals`, loan overpayment check, ledger emission. -/
def salesBody (s : Store) (invoiceId : String) (input : SalesInput) :
    Except CreateErr (Store × SalesInvoice) :=
  if s.salesInvoices.any (fun q => q.2.invoice_id = invoiceId) then .error .integrity
  else
    let invId := s.nextSalesId
    let inv := initialSalesInvoice invoiceId input
    let s1 := { s with salesInvoices := s.salesInvoices ++ [(invId, inv)],
                       nextSalesId := invId + 1 }
    match salesItemsLoop s1 invId inv input.items with
    | .error e => .error e
    | .ok (s2, inv2) =>
      let inv3 := inv2.calculate_totals (salesItemsOf s2 invId)
      let s3 := setSalesInvoice s2 invId inv3
      if input.is_loan = true ∧ input.amount_paid > inv3.total then
        .error (.validation "Amount paid cannot exceed total amount")
      else
        .ok (inv3.create_ledger_transaction s3, inv3)

/-- Per-item body of the `except IntegrityError` retry path: no stock
check, no positivity check; a malformed price surfaces the raw
`InvalidOperation` with whatever has been written so far (no enclosing
`transaction.atomic`). -/
def salesRetryLoop (s : Store) (invId : Nat) (inv : SalesInvoice) :
    List SalesItemInput → Except (CreateErr × Store) (Store × SalesInvoice)
  | [] => .ok (s, inv)
  | d :: rest =>
    match lookupProduct s d.product with
    | none => .error (.notFound, s)
    | some product =>
      match d.price with
      | none => .error (.invalidOperation, s)
      | some price =>
        let r := salesItemStep s invId inv d.product product d.quantity price
        salesRetryLoop r.1 invId r.2 rest

/-- The `except IntegrityError` handler: one retry with a fresh random
display id, outside any atomic block. `retryHex` models the
`uuid.uuid4().hex` draw. -/
def salesRetry (s : Store) (input : SalesInput) (retryHex : String) :
    Except (CreateErr × Store) (Store × SalesInvoice) :=
  let invoiceId := "SALE-" ++ pyUpper (pyTake retryHex 8)
  if s.salesInvoices.any (fun q => q.2.invoice_id = invoiceId) then
    .error (.integrity, s)
  else
    let invId := s.nextSalesId
    let inv := initialSalesInvoice invoiceId input
    let s1 := { s with salesInvoices := s.salesInvoices ++ [(invId, inv)],
                       nextSalesId := invId + 1 }
    match salesRetryLoop s1 invId inv input.items with
    | .error es => .error es
    | .ok (s2, inv2) =>
      let inv3 := inv2.calculate_totals (salesItemsOf s2 invId)
      let s3 := setSalesInvoice s2 invId inv3
      .ok (inv3.create_ledger_transaction s3, inv3)

/-- `CreateSalesInvoiceSerializer.create`. The error value carries the
store the caller observes afterwards: `transaction.atomic` rolls the
primary path back to the caller's store, and `except Exception` re-raises
everything except `IntegrityError` as a `ValidationError`; the retry path
runs outside both handlers. -/
def createSalesInvoice (s : Store) (input : SalesInput)
    (uuidHex retryHex : String) :
    Except (CreateErr × Store) (Store × SalesInvoice) :=
  match salesProductNames s input.items with
  | none => .error (.notFound, s)
  | some names =>
    let invoiceId := generateSalesInvoiceId names input.customerName uuidHex
    match salesBody s invoiceId input with
    | .ok r => .ok r
    | .error .integrity => salesRetry s input retryHex
    | .error e =>
      .error (.validation ("Error creating sales invoice: " ++ e.message), s)

/-- Per-item body of the purchase path: price validation (no stock
limit), then `PurchaseInvoiceItem.objects.create` (stock increment,
invoice recalculation). -/
def purchaseItemsLoop (s : Store) (invId : Nat) (inv : PurchaseInvoice) :
    List PurchaseItemInput → Except CreateErr (Store × PurchaseInvoice)
  | [] => .ok (s, inv)
  | d :: rest =>
    match lookupProduct s d.product with
    | none => .error .notFound
    | some product =>
      match d.price with
      | none => .error (.validation ("Invalid price format for " ++ product.name))
      | some price =>
        if price ≤ 0 then
          .error (.validation ("Price must be greater than 0 for " ++ product.name))
        else
          let r := purchaseItemStep s invId inv d.product product d.quantity price
          purchaseItemsLoop r.1 invId r.2 rest

/-- Body of the purchase `transaction.atomic` block. -/
def purchaseBody (s : Store) (invoiceId : String) (input : PurchaseInput) :
    Except CreateErr (Store × PurchaseInvoice) :=
  if s.purchaseInvoices.any (fun q => q.2.invoice_id = invoiceId) then .error .integrity
  else
    let invId := s.nextPurchaseId
    let inv := initialPurchaseInvoice invoiceId input
    let s1 := { s with purchaseInvoices := s.purchaseInvoices ++ [(invId, inv)],
                       nextPurchaseId := invId + 1 }
    match purchaseItemsLoop s1 invId inv input.items with
    | .error e => .error e
    | .ok (s2, inv2) =>
      let inv3 := inv2.calculate_totals (purchaseItemsOf s2 invId)
      let s3 := setPurchaseInvoice s2 invId inv3
      if input.is_loan = true ∧ input.amount_paid > inv3.total then
        .error (.validation "Amount paid cannot exceed total amount")
      else
        .ok (inv3.create_ledger_transaction s3, inv3)

/-- `CreatePurchaseInvoiceSerializer.create`. Its `try` has only an
`except Exception` handler, so every body failure — a display-id
`IntegrityError` included — is rolled back and re-raised as a
`ValidationError`; there is no retry. -/
def createPurchaseInvoice (s : Store) (input : PurchaseInput) (uuidHex : String) :
    Except (CreateErr × Store) (Store × PurchaseInvoice) :=
  match purchaseProductNames s input.items with
  | none => .error (.notFound, s)
  | some names =>
    let invoiceId := generatePurchaseInvoiceId names input.supplierName uuidHex
    match purchaseBody s invoiceId input with
    | .ok r => .ok r
    | .error e =>
      .error (.validation ("Error creating purchase invoice: " ++ e.message), s)

/-! ## Invoice deletion (`SalesInvoiceViewSet.destroy`,
`PurchaseInvoiceViewSet.destroy`) -/

/-- Delete a sales invoice: restore each line item's quantity to its
product, then delete the invoice and (by cascade) its items. -/
def salesInvoiceDestroy (s : Store) (invId : Nat) : Store :=
  let rows := s.salesItems.filter (fun r => r.invoice = invId)
  let s := rows.foldl (fun acc r =>
    match lookupProduct acc r.product with
    | some p =>
        updateProduct acc r.product
          (Product.save { p with quantity := p.quantity + r.item.quantity })
    | none => acc) s
  { s with salesInvoices := s.salesInvoices.filter (fun q => ¬ q.1 = invId),
           salesItems := s.salesItems.filter (fun r => ¬ r.invoice = invId) }

/-- Delete a purchase invoice: remove each line item's quantity from its
product, then delete the invoice and its items. -/
def purchaseInvoiceDestroy (s : Store) (invId : Nat) : Store :=
  let rows := s.purchaseItems.filter (fun r => r.invoice = invId)
  let s := rows.foldl (fun acc r =>
    match lookupProduct acc r.product with
    | some p =>
        updateProduct acc r.product
          (Product.save { p with quantity := p.quantity - r.item.quantity })
    | none => acc) s
  { s with purchaseInvoices := s.purchaseInvoices.filter (fun q => ¬ q.1 = invId),
           purchaseItems := s.purchaseItems.filter (fun r => ¬ r.invoice = invId) }

/-! ## Product creation with auto purchase invoice
(`ProductViewSet.perform_create`) -/

structure ProductInput where
  name : String
  unit : String
  quantity : Int
  price : Money
  sale_price : Money
  supplier : Option Nat
  low_stock_threshold : Int
  description : String
  amount_paid : Option Money
deriving DecidableEq, Repr

/-- The `while ... exists()` loop drawing `PUR-<timestamp>-<random>` ids:
the first candidate from `uuidHexes` not already taken (`none` when the
supply is exhausted, i.e. the loop would keep drawing). -/
def freshAutoPurchaseId (existing : List String) (timestamp : String)
    (uuidHexes : List String) : Option String :=
  (uuidHexes.map (fun u => "PUR-" ++ timestamp ++ "-" ++ pyUpper (pyTake u 6))).find?
    (fun i => ¬ existing.contains i)

/-- `ProductViewSet.perform_create`: persist the product (normalised
name), and when it has a supplier and positive quantity, synthesise a
purchase invoice with one line item saved with
`skip_product_update=True`, followed by `calculate_totals`. Returns the
new store, the product and the synthesised invoice, or `none` when the
id-drawing loop never finds a free id. -/
def ProductViewSet.perform_create (s : Store) (pd : ProductInput)
    (timestamp : String) (uuidHexes : List String) :
    Option (Store × Product × Option PurchaseInvoice) :=
  let product := Product.save
    { name := pyStripLower pd.name, unit := pd.unit, quantity := pd.quantity,
      price := pd.price, sale_price := pd.sale_price, supplier := pd.supplier,
      status := "in_stock", low_stock_threshold := pd.low_stock_threshold,
      description := pd.description }
  let pid := s.nextProductId
  let s := { s with products := s.products ++ [(pid, product)],
                    nextProductId := pid + 1 }
  if product.supplier.isSome ∧ product.quantity > 0 then
    match freshAutoPurchaseId (s.purchaseInvoices.map (fun q => q.2.invoice_id))
        timestamp uuidHexes with
    | none => none
    | some invoiceId =>
      let total_cost := product.price * product.quantity
      let amount_paid :=
        match pd.amount_paid with
        | none => total_cost
        | some a => a
      let is_loan := amount_paid < total_cost
      let invId := s.nextPurchaseId
      let inv : PurchaseInvoice :=
        { invoice_id := invoiceId, supplier := product.supplier.getD 0,
          subtotal := 0, tax_rate := 0, tax_amount := 0, total := 0,
          notes := "Auto-generated for new product: " ++ product.name
            ++ (if is_loan then " (Loan)" else ""),
          is_loan := is_loan, amount_paid := amount_paid,
          remaining_balance := 0, payment_status := "paid" }
      let s := { s with purchaseInvoices := s.purchaseInvoices ++ [(invId, inv)],
                        nextPurchaseId := invId + 1 }
      let item : PurchaseInvoiceItem :=
        { quantity := product.quantity, price := product.price,
          total := product.quantity * product.price }
      let s := { s with purchaseItems := s.purchaseItems ++
        [{ invoice := invId, product := pid, item := item }] }
      let inv1 := inv.calculate_totals (purchaseItemsOf s invId)
      let s := setPurchaseInvoice s invId inv1
      let inv2 := inv1.calculate_totals (purchaseItemsOf s invId)
      let s := setPurchaseInvoice s invId inv2
      some (s, product, some inv2)
  else
    some (s, product, none)

/-! ## Concrete instances used to instantiate the theorems -/

def emptyCustomerLedger : CustomerLedger :=
  { current_balance := 0, total_sales := 0, total_payments := 0, credit_limit := 0 }

def emptySupplierLedger : SupplierLedger :=
  { current_balance := 0, total_purchases := 0, total_payments := 0 }

/-- A non-loan sales invoice whose customer has paid nothing yet. -/
def c2Inv : SalesInvoice :=
  { invoice_id := "S: Widget → Bob", customer := 0, subtotal := 0, tax_rate := 0,
    tax_amount := 0, total := 0, notes := "", is_loan := false, amount_paid := 0,
    remaining_balance := 0, payment_status := "paid" }

def c2Item : SalesInvoiceItem := { quantity := 2, price := 5, total := 10 }

def c2PInv : PurchaseInvoice :=
  { invoice_id := "P: Widget ← Acme", supplier := 0, subtotal := 0, tax_rate := 0,
    tax_amount := 0, total := 0, notes := "", is_loan := false, amount_paid := 0,
    remaining_balance := 0, payment_status := "paid" }

def c2PItem : PurchaseInvoiceItem := { quantity := 2, price := 5, total := 10 }

/-- A loan invoice with no line items (so recomputed total 0) and nothing
paid: `amount_paid = 0` lies inside `[0, total]`. -/
def c3Inv : SalesInvoice :=
  { invoice_id := "S: empty", customer := 0, subtotal := 0, tax_rate := 0,
    tax_amount := 0, total := 0, notes := "", is_loan := true, amount_paid := 0,
    remaining_balance := 0, payment_status := "unpaid" }

/-- A loan sales invoice over one 2 × 5 line item, 3 paid so far. -/
def c3WInv : SalesInvoice :=
  { invoice_id := "S: loan", customer := 0, subtotal := 10, tax_rate := 0,
    tax_amount := 0, total := 10, notes := "", is_loan := true, amount_paid := 3,
    remaining_balance := 7, payment_status := "partial" }

def c3WPInv : PurchaseInvoice :=
  { invoice_id := "P: loan", supplier := 0, subtotal := 10, tax_rate := 0,
    tax_amount := 0, total := 10, notes := "", is_loan := true, amount_paid := 3,
    remaining_balance := 7, payment_status := "partial" }

/-- Store holding exactly one sales invoice (key 7) with one line item on
product 0, as left behind by posting: used to run the deletion path. -/
def c4SalesStore (p : Product) (inv : SalesInvoice) (it : SalesInvoiceItem) : Store :=
  { products := [(0, p)], nextProductId := 1,
    salesInvoices := [(7, inv)], nextSalesId := 8,
    salesItems := [{ invoice := 7, product := 0, item := it }],
    purchaseInvoices := [], nextPurchaseId := 0, purchaseItems := [],
    customerTransactions := [], customerLedger := emptyCustomerLedger,
    supplierTransactions := [], supplierLedger := emptySupplierLedger }

def c4PurchaseStore (p : Product) (inv : PurchaseInvoice) (it : PurchaseInvoiceItem) :
    Store :=
  { products := [(0, p)], nextProductId := 1,
    salesInvoices := [], nextSalesId := 0, salesItems := [],
    purchaseInvoices := [(7, inv)], nextPurchaseId := 8,
    purchaseItems := [{ invoice := 7, product := 0, item := it }],
    customerTransactions := [], customerLedger := emptyCustomerLedger,
    supplierTransactions := [], supplierLedger := emptySupplierLedger }

def c4Prod : Product :=
  { name := "Rice", unit := "kg", quantity := 9, price := 2, sale_price := 3,
    supplier := some 0, status := "in_stock", low_stock_threshold := 4,
    description := "" }

def c4Item : SalesInvoiceItem := { quantity := 4, price := 3, total := 12 }

def c4PItem : PurchaseInvoiceItem := { quantity := 4, price := 3, total := 12 }

def c4Inv : SalesInvoice :=
  { invoice_id := "S: Rice → Bob", customer := 0, subtotal := 12, tax_rate := 0,
    tax_amount := 0, total := 12, notes := "", is_loan := false, amount_paid := 0,
    remaining_balance := 12, payment_status := "unpaid" }

def c4PInv : PurchaseInvoice :=
  { invoice_id := "P: Rice ← Acme", supplier := 0, subtotal := 12, tax_rate := 0,
    tax_amount := 0, total := 12, notes := "", is_loan := false, amount_paid := 0,
    remaining_balance := 12, payment_status := "unpaid" }

/-- A product with one unit in stock. -/
def c5Widget : Product :=
  { name := "Widget", unit := "piece", quantity := 1, price := 2, sale_price := 3,
    supplier := some 0, status := "low_stock", low_stock_threshold := 10,
    description := "" }

def c5Store : Store :=
  { products := [(0, c5Widget)], nextProductId := 1,
    salesInvoices := [], nextSalesId := 0, salesItems := [],
    purchaseInvoices := [], nextPurchaseId := 0, purchaseItems := [],
    customerTransactions := [], customerLedger := emptyCustomerLedger,
    supplierTransactions := [], supplierLedger := emptySupplierLedger }

/-- A sales request for five widgets when only one is in stock. -/
def c5Input : SalesInput :=
  { customer := 0, customerName := "Bob", notes := "", is_loan := false,
    amount_paid := 0, items := [{ product := 0, quantity := 5, price := some 2 }] }

/-- A purchase request with a non-positive price. -/
def c5PInput : PurchaseInput :=
  { supplier := 0, supplierName := "Acme", notes := "", is_loan := false,
    amount_paid := 0, items := [{ product := 0, quantity := 5, price := some 0 }] }

/-- A loan sales invoice of total 10 with 3 paid, and its line item. -/
def c6Inv : SalesInvoice :=
  { invoice_id := "S: loan", customer := 0, subtotal := 10, tax_rate := 0,
    tax_amount := 0, total := 10, notes := "", is_loan := true, amount_paid := 3,
    remaining_balance := 7, payment_status := "partial" }

def c6Items : List SalesInvoiceItem := [{ quantity := 2, price := 5, total := 10 }]

def c6PInv : PurchaseInvoice :=
  { invoice_id := "P: loan", supplier := 0, subtotal := 10, tax_rate := 0,
    tax_amount := 0, total := 10, notes := "", is_loan := true, amount_paid := 3,
    remaining_balance := 7, payment_status := "partial" }

def c6PItems : List PurchaseInvoiceItem := [{ quantity := 2, price := 5, total := 10 }]

def c7Txns : List CustomerLedgerTransaction :=
  [{ transaction_type := "sale", amount := 100, description := "" },
   { transaction_type := "payment", amount := 30, description := "" },
   { transaction_type := "discount", amount := 5, description := "" },
   { transaction_type := "interest", amount := 2, description := "" }]

def c7STxns : List SupplierLedgerTransaction :=
  [{ transaction_type := "purchase", amount := 80, description := "" },
   { transaction_type := "payment", amount := 50, description := "" },
   { transaction_type := "adjustment", amount := 10, description := "" },
   { transaction_type := "return", amount := 4, description := "" }]

/-- Product-creation request: 100 kg of beans at cost 2.50 with 100 paid
of the 250 total. -/
def c8Input : ProductInput :=
  { name := "Beans", unit := "kg", quantity := 100, price := 250, sale_price := 300,
    supplier := some 0, low_stock_threshold := 10, description := "",
    amount_paid := some 10000 }

/-- Store whose only sales invoice already carries the display id the
generator will compose for a one-widget sale to Bob, forcing the
`IntegrityError` on the first insert. -/
def c9Inv : SalesInvoice :=
  { invoice_id := "S: Widget → Bob", customer := 0, subtotal := 0, tax_rate := 0,
    tax_amount := 0, total := 0, notes := "", is_loan := false, amount_paid := 0,
    remaining_balance := 0, payment_status := "paid" }

def c9Widget : Product :=
  { name := "Widget", unit := "piece", quantity := 50, price := 2, sale_price := 3,
    supplier := some 0, status := "in_stock", low_stock_threshold := 10,
    description := "" }

def c9Store : Store :=
  { products := [(0, c9Widget)], nextProductId := 1,
    salesInvoices := [(0, c9Inv)], nextSalesId := 1, salesItems := [],
    purchaseInvoices := [], nextPurchaseId := 0, purchaseItems := [],
    customerTransactions := [], customerLedger := emptyCustomerLedger,
    supplierTransactions := [], supplierLedger := emptySupplierLedger }

def c9Input : SalesInput :=
  { customer := 0, customerName := "Bob", notes := "", is_loan := false,
    amount_paid := 0, items := [{ product := 0, quantity := 5, price := some 2 }] }

/-- Purchase-side collision: the store already holds the composed display
id for a one-widget purchase from Acme, and no `PUR-…` random id at all,
so a retry with a random id would have been available. -/
def c9PInv : PurchaseInvoice :=
  { invoice_id := "P: Widget ← Acme", supplier := 0, subtotal := 0, tax_rate := 0,
    tax_amount := 0, total := 0, notes := "", is_loan := false, amount_paid := 0,
    remaining_balance := 0, payment_status := "paid" }

def c9PStore : Store :=
  { products := [(0, c9Widget)], nextProductId := 1,
    salesInvoices := [], nextSalesId := 0, salesItems := [],
    purchaseInvoices := [(0, c9PInv)], nextPurchaseId := 1, purchaseItems := [],
    customerTransactions := [], customerLedger := emptyCustomerLedger,
    supplierTransactions := [], supplierLedger := emptySupplierLedger }

def c9PInput : PurchaseInput :=
  { supplier := 0, supplierName := "Acme", notes := "", is_loan := false,
    amount_paid := 0, items := [{ product := 0, quantity := 5, price := some 2 }] }

/-- One widget in stock, a request for five, and a stale invoice already
holding the composed display id — the first insert collides and the
retry path runs. -/
def c10Widget : Product :=
  { name := "Widget", unit := "piece", quantity := 1, price := 2, sale_price := 3,
    supplier := some 0, status := "low_stock", low_stock_threshold := 10,
    description := "" }

def c10Inv : SalesInvoice :=
  { invoice_id := "S: Widget → Bob", customer := 0, subtotal := 0, tax_rate := 0,
    tax_amount := 0, total := 0, notes := "", is_loan := false, amount_paid := 0,
    remaining_balance := 0, payment_status := "paid" }

def c10Store : Store :=
  { products := [(0, c10Widget)], nextProductId := 1,
    salesInvoices := [(0, c10Inv)], nextSalesId := 1, salesItems := [],
    purchaseInvoices := [], nextPurchaseId := 0, purchaseItems := [],
    customerTransactions := [], customerLedger := emptyCustomerLedger,
    supplierTransactions := [], supplierLedger := emptySupplierLedger }

def c10Input : SalesInput :=
  { customer := 0, customerName := "Bob", notes := "", is_loan := false,
    amount_paid := 0, items := [{ product := 0, quantity := 5, price := some 2 }] }

deriving instance DecidableEq for Except

/-- First projection of an `Except` creation result, when successful. -/
def createdStore {ε α β : Type} : Except ε (α × β) → Option α
  | .ok r => some r.1
  | .error _ => none

def createdInvoice {ε α β : Type} : Except ε (α × β) → Option β
  | .ok r => some r.2
  | .error _ => none

/-! ## Helper lemmas -/

theorem Product.save_quantity (p : Product) : (Product.save p).quantity = p.quantity := by
  unfold Product.save; split_ifs <;> rfl

theorem Product.save_supplier (p : Product) : (Product.save p).supplier = p.supplier := by
  unfold Product.save; split_ifs <;> rfl

theorem Product.save_price (p : Product) : (Product.save p).price = p.price := by
  unfold Product.save; split_ifs <;> rfl

theorem SalesInvoice.calculate_totals_subtotal (inv : SalesInvoice)
    (items : List SalesInvoiceItem) :
    (inv.calculate_totals items).subtotal = (items.map (fun i => i.total)).sum := by
  unfold SalesInvoice.calculate_totals; dsimp only; split_ifs <;> rfl

theorem SalesInvoice.calculate_totals_tax (inv : SalesInvoice)
    (items : List SalesInvoiceItem) : (inv.calculate_totals items).tax_amount = 0 := by
  unfold SalesInvoice.calculate_totals; dsimp only; split_ifs <;> rfl

theorem SalesInvoice.calculate_totals_total (inv : SalesInvoice)
    (items : List SalesInvoiceItem) :
    (inv.calculate_totals items).total = (items.map (fun i => i.total)).sum := by
  unfold SalesInvoice.calculate_totals; dsimp only; split_ifs <;> rfl

theorem SalesInvoice.calculate_totals_amount_paid (inv : SalesInvoice)
    (items : List SalesInvoiceItem) :
    (inv.calculate_totals items).amount_paid = inv.amount_paid := by
  unfold SalesInvoice.calculate_totals; dsimp only; split_ifs <;> rfl

theorem SalesInvoice.calculate_totals_is_loan (inv : SalesInvoice)
    (items : List SalesInvoiceItem) :
    (inv.calculate_totals items).is_loan = inv.is_loan := by
  unfold SalesInvoice.calculate_totals; dsimp only; split_ifs <;> rfl

theorem SalesInvoice.calculate_totals_invoice_id (inv : SalesInvoice)
    (items : List SalesInvoiceItem) :
    (inv.calculate_totals items).invoice_id = inv.invoice_id := by
  unfold SalesInvoice.calculate_totals; dsimp only; split_ifs <;> rfl

theorem SalesInvoice.calculate_totals_remaining (inv : SalesInvoice)
    (items : List SalesInvoiceItem) :
    (inv.calculate_totals items).remaining_balance
      = max 0 ((items.map (fun i => i.total)).sum - inv.amount_paid) := by
  unfold SalesInvoice.calculate_totals
  dsimp only
  split_ifs with h1 h2 <;> dsimp only
  · exact (max_eq_left (by linarith)).symm
  · push_neg at h1
    exact (max_eq_right (by linarith)).symm
  · push_neg at h1
    exact (max_eq_right (by linarith)).symm

theorem SalesInvoice.calculate_totals_status (inv : SalesInvoice)
    (items : List SalesInvoiceItem) :
    (inv.calculate_totals items).payment_status
      = paymentStatusRule inv.amount_paid ((items.map (fun i => i.total)).sum) := by
  unfold SalesInvoice.calculate_totals paymentStatusRule
  dsimp only
  split_ifs <;> rfl

theorem PurchaseInvoice.purchase_totals_subtotal (inv : PurchaseInvoice)
    (items : List PurchaseInvoiceItem) :
    (inv.calculate_totals items).subtotal = (items.map (fun i => i.total)).sum := by
  unfold PurchaseInvoice.calculate_totals; dsimp only; split_ifs <;> rfl

theorem PurchaseInvoice.purchase_totals_tax (inv : PurchaseInvoice)
    (items : List PurchaseInvoiceItem) : (inv.calculate_totals items).tax_amount = 0 := by
  unfold PurchaseInvoice.calculate_totals; dsimp only; split_ifs <;> rfl

theorem PurchaseInvoice.purchase_totals_total (inv : PurchaseInvoice)
    (items : List PurchaseInvoiceItem) :
    (inv.calculate_totals items).total = (items.map (fun i => i.total)).sum := by
  unfold PurchaseInvoice.calculate_totals; dsimp only; split_ifs <;> rfl

theorem PurchaseInvoice.purchase_totals_amount_paid (inv : PurchaseInvoice)
    (items : List PurchaseInvoiceItem) :
    (inv.calculate_totals items).amount_paid = inv.amount_paid := by
  unfold PurchaseInvoice.calculate_totals; dsimp only; split_ifs <;> rfl

theorem PurchaseInvoice.purchase_totals_is_loan (inv : PurchaseInvoice)
    (items : List PurchaseInvoiceItem) :
    (inv.calculate_totals items).is_loan = inv.is_loan := by
  unfold PurchaseInvoice.calculate_totals; dsimp only; split_ifs <;> rfl

theorem PurchaseInvoice.purchase_totals_invoice_id (inv : PurchaseInvoice)
    (items : List PurchaseInvoiceItem) :
    (inv.calculate_totals items).invoice_id = inv.invoice_id := by
  unfold PurchaseInvoice.calculate_totals; dsimp only; split_ifs <;> rfl

theorem PurchaseInvoice.purchase_totals_remaining (inv : PurchaseInvoice)
    (items : List PurchaseInvoiceItem) :
    (inv.calculate_totals items).remaining_balance
      = max 0 ((items.map (fun i => i.total)).sum - inv.amount_paid) := by
  unfold PurchaseInvoice.calculate_totals
  dsimp only
  split_ifs with h1 h2 <;> dsimp only
  · exact (max_eq_left (by linarith)).symm
  · push_neg at h1
    exact (max_eq_right (by linarith)).symm
  · push_neg at h1
    exact (max_eq_right (by linarith)).symm

theorem PurchaseInvoice.purchase_totals_status (inv : PurchaseInvoice)
    (items : List PurchaseInvoiceItem) :
    (inv.calculate_totals items).payment_status
      = paymentStatusRule inv.amount_paid ((items.map (fun i => i.total)).sum) := by
  unfold PurchaseInvoice.calculate_totals paymentStatusRule
  dsimp only
  split_ifs <;> rfl


/-! ## Claims -/

/-- C1: for every invoice (sales or purchase), after the Totals
Calculator runs over its current line items, `subtotal` equals the sum of
the line items' totals, `tax_amount` equals 0, `total` equals `subtotal`,
and every line item's stored `total` (as written by the item `save`)
equals its quantity times its price. -/
theorem claim_C1_totals :
    ∀ (inv : SalesInvoice) (items : List SalesInvoiceItem)
      (pinv : PurchaseInvoice) (pitems : List PurchaseInvoiceItem)
      (it : SalesInvoiceItem) (prod : Product) (inv2 : SalesInvoice)
      (its : List SalesInvoiceItem) (sp si : Bool)
      (pit : PurchaseInvoiceItem) (pprod : Product) (pinv2 : PurchaseInvoice)
      (pits : List PurchaseInvoiceItem) (psp psi : Bool),
      (inv.calculate_totals items).subtotal = (items.map (fun i => i.total)).sum
      ∧ (inv.calculate_totals items).tax_amount = 0
      ∧ (inv.calculate_totals items).total = (inv.calculate_totals items).subtotal
      ∧ (it.save prod inv2 its sp si).1.total = it.quantity * it.price
      ∧ (pinv.calculate_totals pitems).subtotal = (pitems.map (fun i => i.total)).sum
      ∧ (pinv.calculate_totals pitems).tax_amount = 0
      ∧ (pinv.calculate_totals pitems).total = (pinv.calculate_totals pitems).subtotal
      ∧ (pit.save pprod pinv2 pits psp psi).1.total = pit.quantity * pit.price := by
  intro inv items pinv pitems it prod inv2 its sp si pit pprod pinv2 pits psp psi
  refine ⟨inv.calculate_totals_subtotal items, inv.calculate_totals_tax items, ?_, ?_,
    pinv.purchase_totals_subtotal pitems, pinv.purchase_totals_tax pitems, ?_, ?_⟩
  · rw [inv.calculate_totals_total items, inv.calculate_totals_subtotal items]
  · rfl
  · rw [pinv.purchase_totals_total pitems, pinv.purchase_totals_subtotal pitems]
  · rfl

/-- C2 counterexample: a non-loan invoice whose customer paid nothing
against a 10-total line item: after `calculate_totals` the invoice is
`unpaid` with `amount_paid = 0 ≠ total = 10` and `remaining_balance =
10 ≠ 0`, so the Totals Calculator does not force non-loan invoices to
`paid`. -/
theorem claim_C2_counterexample :
    c2Inv.is_loan = false
    ∧ (c2Inv.calculate_totals [c2Item]).payment_status = "unpaid"
    ∧ ¬ (c2Inv.calculate_totals [c2Item]).amount_paid
        = (c2Inv.calculate_totals [c2Item]).total
    ∧ ¬ (c2Inv.calculate_totals [c2Item]).remaining_balance = 0
    ∧ c2PInv.is_loan = false
    ∧ (c2PInv.calculate_totals [c2PItem]).payment_status = "unpaid"
    ∧ ¬ (c2PInv.calculate_totals [c2PItem]).amount_paid
        = (c2PInv.calculate_totals [c2PItem]).total
    ∧ ¬ "unpaid" = "paid" := by decide

/-- C2 amended: for every invoice whose `is_loan` flag is false, the
Totals Calculator leaves `amount_paid` unchanged (it is not forced to
`total`), and derives `remaining_balance = max 0 (total - amount_paid)`
and `payment_status` by the same three-way rule it applies to loans —
the calculator ignores the `is_loan` flag. -/
theorem claim_C2_amended :
    ∀ (inv : SalesInvoice) (items : List SalesInvoiceItem)
      (pinv : PurchaseInvoice) (pitems : List PurchaseInvoiceItem),
      inv.is_loan = false → pinv.is_loan = false →
      ((inv.calculate_totals items).amount_paid = inv.amount_paid
       ∧ (inv.calculate_totals items).remaining_balance
           = max 0 ((inv.calculate_totals items).total - inv.amount_paid)
       ∧ (inv.calculate_totals items).payment_status
           = paymentStatusRule inv.amount_paid ((inv.calculate_totals items).total))
      ∧ ((pinv.calculate_totals pitems).amount_paid = pinv.amount_paid
       ∧ (pinv.calculate_totals pitems).remaining_balance
           = max 0 ((pinv.calculate_totals pitems).total - pinv.amount_paid)
       ∧ (pinv.calculate_totals pitems).payment_status
           = paymentStatusRule pinv.amount_paid ((pinv.calculate_totals pitems).total)) := by
  intro inv items pinv pitems _ _
  refine ⟨⟨inv.calculate_totals_amount_paid items, ?_, ?_⟩,
          pinv.purchase_totals_amount_paid pitems, ?_, ?_⟩
  · rw [inv.calculate_totals_total items]
    exact inv.calculate_totals_remaining items
  · rw [inv.calculate_totals_total items]
    exact inv.calculate_totals_status items
  · rw [pinv.purchase_totals_total pitems]
    exact pinv.purchase_totals_remaining pitems
  · rw [pinv.purchase_totals_total pitems]
    exact pinv.purchase_totals_status pitems

/-- C2 amended, instantiated at the non-loan invoices of the
counterexample: recomputation keeps `amount_paid = 0`, sets
`remaining_balance = 10` and derives `unpaid`. -/
theorem claim_C2_amended_witness :
    (c2Inv.calculate_totals [c2Item]).amount_paid = 0
    ∧ (c2Inv.calculate_totals [c2Item]).remaining_balance = max 0 (10 - 0)
    ∧ (c2Inv.calculate_totals [c2Item]).payment_status = paymentStatusRule 0 10 := by
  have h := claim_C2_amended c2Inv [c2Item] c2PInv [c2PItem] (by decide) (by decide)
  refine ⟨h.1.1, ?_, ?_⟩
  · have h2 := h.1.2.1
    rw [show (c2Inv.calculate_totals [c2Item]).total = 10 by decide,
        show c2Inv.amount_paid = 0 by decide] at h2
    exact h2
  · have h2 := h.1.2.2
    rw [show (c2Inv.calculate_totals [c2Item]).total = 10 by decide,
        show c2Inv.amount_paid = 0 by decide] at h2
    exact h2

/-- C3 counterexample: a loan invoice with no line items (recomputed
total 0) and `amount_paid = 0` — inside the claim's range `[0, total]` —
gets `payment_status = "paid"`, not the `"unpaid"` the claim's
`amount_paid == 0` clause requires. -/
theorem claim_C3_counterexample :
    c3Inv.is_loan = true
    ∧ c3Inv.amount_paid = 0
    ∧ 0 ≤ c3Inv.amount_paid
    ∧ c3Inv.amount_paid ≤ (([] : List SalesInvoiceItem).map (fun i => i.total)).sum
    ∧ (c3Inv.calculate_totals []).payment_status = "paid"
    ∧ ¬ "paid" = "unpaid" := by decide

/-- C3 amended: for every loan invoice with `amount_paid` in
`[0, total]`, after the Totals Calculator runs, `remaining_balance =
max 0 (total - amount_paid)`; `payment_status` is `paid` when
`amount_paid ≥ total`, `partial` when `0 < amount_paid < total`, and
`unpaid` when `amount_paid = 0` and `total > 0` (when `total = 0` the
`paid` branch wins, as the counterexample shows). -/
theorem claim_C3_amended :
    ∀ (inv : SalesInvoice) (items : List SalesInvoiceItem)
      (pinv : PurchaseInvoice) (pitems : List PurchaseInvoiceItem),
      inv.is_loan = true → 0 ≤ inv.amount_paid →
      inv.amount_paid ≤ (items.map (fun i => i.total)).sum →
      pinv.is_loan = true → 0 ≤ pinv.amount_paid →
      pinv.amount_paid ≤ (pitems.map (fun i => i.total)).sum →
      ((inv.calculate_totals items).remaining_balance
         = max 0 ((inv.calculate_totals items).total - inv.amount_paid)
       ∧ (inv.amount_paid ≥ (inv.calculate_totals items).total →
           (inv.calculate_totals items).payment_status = "paid")
       ∧ (0 < inv.amount_paid ∧ inv.amount_paid < (inv.calculate_totals items).total →
           (inv.calculate_totals items).payment_status = "partial")
       ∧ (inv.amount_paid = 0 ∧ 0 < (inv.calculate_totals items).total →
           (inv.calculate_totals items).payment_status = "unpaid"))
      ∧ ((pinv.calculate_totals pitems).remaining_balance
         = max 0 ((pinv.calculate_totals pitems).total - pinv.amount_paid)
       ∧ (pinv.amount_paid ≥ (pinv.calculate_totals pitems).total →
           (pinv.calculate_totals pitems).payment_status = "paid")
       ∧ (0 < pinv.amount_paid ∧ pinv.amount_paid < (pinv.calculate_totals pitems).total →
           (pinv.calculate_totals pitems).payment_status = "partial")
       ∧ (pinv.amount_paid = 0 ∧ 0 < (pinv.calculate_totals pitems).total →
           (pinv.calculate_totals pitems).payment_status = "unpaid")) := by
  intro inv items pinv pitems _ _ _ _ _ _
  constructor
  · rw [inv.calculate_totals_total items, inv.calculate_totals_status items,
        inv.calculate_totals_remaining items]
    refine ⟨rfl, ?_, ?_, ?_⟩
    · intro h
      unfold paymentStatusRule
      rw [if_pos h]
    · rintro ⟨h1, h2⟩
      unfold paymentStatusRule
      rw [if_neg (by simp only [ge_iff_le, not_le]; linarith), if_pos h1]
    · rintro ⟨h1, h2⟩
      unfold paymentStatusRule
      rw [if_neg (by simp only [ge_iff_le, not_le]; linarith),
          if_neg (by simp only [not_lt]; linarith)]
  · rw [pinv.purchase_totals_total pitems, pinv.purchase_totals_status pitems,
        pinv.purchase_totals_remaining pitems]
    refine ⟨rfl, ?_, ?_, ?_⟩
    · intro h
      unfold paymentStatusRule
      rw [if_pos h]
    · rintro ⟨h1, h2⟩
      unfold paymentStatusRule
      rw [if_neg (by simp only [ge_iff_le, not_le]; linarith), if_pos h1]
    · rintro ⟨h1, h2⟩
      unfold paymentStatusRule
      rw [if_neg (by simp only [ge_iff_le, not_le]; linarith),
          if_neg (by simp only [not_lt]; linarith)]

/-- C3 amended, instantiated at a loan invoice of total 10 with 3 paid:
remaining balance 7 and status `partial`. -/
theorem claim_C3_amended_witness :
    (c3WInv.calculate_totals c6Items).remaining_balance = max 0 (10 - 3)
    ∧ (c3WInv.calculate_totals c6Items).payment_status = "partial"
    ∧ (c3WPInv.calculate_totals c6PItems).payment_status = "partial" := by
  have h := claim_C3_amended c3WInv c6Items c3WPInv c6PItems
    (by decide) (by decide) (by decide) (by decide) (by decide) (by decide)
  refine ⟨?_, ?_, ?_⟩
  · have h2 := h.1.1
    rw [show (c3WInv.calculate_totals c6Items).total = 10 by decide,
        show c3WInv.amount_paid = 3 by decide] at h2
    exact h2
  · exact h.1.2.2.1 (by decide)
  · exact h.2.2.2.1 (by decide)

/-- C4: posting a sales line item of quantity Q against stock S (Q ≤ S)
leaves stock S − Q; posting a purchase line item leaves S + Q; deleting
the invoice holding that line item applies the exact inverse adjustment
(sales deletion adds Q back, purchase deletion subtracts it) and removes
the invoice and its items. -/
theorem claim_C4_stock :
    ∀ (prod : Product) (it : SalesInvoiceItem) (inv : SalesInvoice)
      (its : List SalesInvoiceItem)
      (pprod : Product) (pit : PurchaseInvoiceItem) (pinv : PurchaseInvoice)
      (pits : List PurchaseInvoiceItem),
      it.quantity ≤ prod.quantity →
      (it.save prod inv its false false).2.1.quantity = prod.quantity - it.quantity
      ∧ (pit.save pprod pinv pits false false).2.1.quantity = pprod.quantity + pit.quantity
      ∧ ((salesInvoiceDestroy (c4SalesStore prod inv it) 7).products.map
           (fun q => (q.1, q.2.quantity))) = [(0, prod.quantity + it.quantity)]
      ∧ (salesInvoiceDestroy (c4SalesStore prod inv it) 7).salesInvoices = []
      ∧ (salesInvoiceDestroy (c4SalesStore prod inv it) 7).salesItems = []
      ∧ ((purchaseInvoiceDestroy (c4PurchaseStore pprod pinv pit) 7).products.map
           (fun q => (q.1, q.2.quantity))) = [(0, pprod.quantity - pit.quantity)]
      ∧ (purchaseInvoiceDestroy (c4PurchaseStore pprod pinv pit) 7).purchaseInvoices = []
      ∧ (purchaseInvoiceDestroy (c4PurchaseStore pprod pinv pit) 7).purchaseItems = [] := by
  intro prod it inv its pprod pit pinv pits _
  refine ⟨?_, ?_, ?_, ?_, ?_, ?_, ?_, ?_⟩
  · simp [SalesInvoiceItem.save, Product.save_quantity]
  · simp [PurchaseInvoiceItem.save, Product.save_quantity]
  · simp [salesInvoiceDestroy, c4SalesStore, lookupProduct, updateProduct,
      Product.save_quantity, List.filter, List.find?, List.foldl]
  · simp [salesInvoiceDestroy, c4SalesStore, List.filter]
  · simp [salesInvoiceDestroy, c4SalesStore, List.filter]
  · simp [purchaseInvoiceDestroy, c4PurchaseStore, lookupProduct, updateProduct,
      Product.save_quantity, List.filter, List.find?, List.foldl]
  · simp [purchaseInvoiceDestroy, c4PurchaseStore, List.filter]
  · simp [purchaseInvoiceDestroy, c4PurchaseStore, List.filter]

/-- C4 instantiated: four of nine units sold leave five; deleting the
invoice restores nine; the purchase mirror adds four then removes them. -/
theorem claim_C4_witness :
    (c4Item.save c4Prod c4Inv [] false false).2.1.quantity = c4Prod.quantity - c4Item.quantity
    ∧ ((salesInvoiceDestroy (c4SalesStore c4Prod c4Inv c4Item) 7).products.map
         (fun q => (q.1, q.2.quantity))) = [(0, c4Prod.quantity + c4Item.quantity)]
    ∧ ((purchaseInvoiceDestroy (c4PurchaseStore c4Prod c4PInv c4PItem) 7).products.map
         (fun q => (q.1, q.2.quantity))) = [(0, c4Prod.quantity - c4PItem.quantity)] := by
  have h := claim_C4_stock c4Prod c4Item c4Inv [] c4Prod c4PItem c4PInv [] (by decide)
  exact ⟨h.1, h.2.2.1, h.2.2.2.2.2.1⟩

theorem SalesInvoice.add_payment_spec (inv : SalesInvoice)
    (items : List SalesInvoiceItem) (pays : List SalesLoanPayment)
    (amount : Money) (n : String) :
    ((inv.add_payment items pays amount n).2.2.isSome
       ↔ (inv.is_loan = false ∨ amount ≤ 0 ∨ inv.amount_paid + amount > inv.total))
    ∧ ((inv.add_payment items pays amount n).2.2.isSome →
         (inv.add_payment items pays amount n).1 = inv
         ∧ (inv.add_payment items pays amount n).2.1 = pays)
    ∧ ((inv.add_payment items pays amount n).2.2 = none →
         (inv.add_payment items pays amount n).2.1
           = pays ++ [{ amount := amount, notes := n }]
         ∧ (inv.add_payment items pays amount n).1.amount_paid
           = inv.amount_paid + amount
         ∧ (inv.add_payment items pays amount n).1.remaining_balance
           = max 0 ((inv.add_payment items pays amount n).1.total
               - (inv.add_payment items pays amount n).1.amount_paid)
         ∧ (inv.add_payment items pays amount n).1.payment_status
           = paymentStatusRule (inv.add_payment items pays amount n).1.amount_paid
               (inv.add_payment items pays amount n).1.total) := by
  unfold SalesInvoice.add_payment
  split_ifs with h1 h2 h3
  · exact ⟨by simp [h1], fun _ => ⟨rfl, rfl⟩, by simp⟩
  · exact ⟨by simp [h2], fun _ => ⟨rfl, rfl⟩, by simp⟩
  · exact ⟨by simp [h3], fun _ => ⟨rfl, rfl⟩, by simp⟩
  · dsimp only
    refine ⟨by simp [h1, h2, h3], by simp, ?_⟩
    intro _
    refine ⟨rfl, ?_, ?_, ?_⟩
    · rw [SalesInvoice.calculate_totals_amount_paid]
    · rw [SalesInvoice.calculate_totals_remaining, SalesInvoice.calculate_totals_total,
          SalesInvoice.calculate_totals_amount_paid]
    · rw [SalesInvoice.calculate_totals_status, SalesInvoice.calculate_totals_total,
          SalesInvoice.calculate_totals_amount_paid]

theorem PurchaseInvoice.purchase_add_payment_spec (inv : PurchaseInvoice)
    (items : List PurchaseInvoiceItem) (pays : List PurchaseLoanPayment)
    (amount : Money) (n : String) :
    ((inv.add_payment items pays amount n).2.2.isSome
       ↔ (inv.is_loan = false ∨ amount ≤ 0 ∨ inv.amount_paid + amount > inv.total))
    ∧ ((inv.add_payment items pays amount n).2.2.isSome →
         (inv.add_payment items pays amount n).1 = inv
         ∧ (inv.add_payment items pays amount n).2.1 = pays)
    ∧ ((inv.add_payment items pays amount n).2.2 = none →
         (inv.add_payment items pays amount n).2.1
           = pays ++ [{ amount := amount, notes := n }]
         ∧ (inv.add_payment items pays amount n).1.amount_paid
           = inv.amount_paid + amount
         ∧ (inv.add_payment items pays amount n).1.remaining_balance
           = max 0 ((inv.add_payment items pays amount n).1.total
               - (inv.add_payment items pays amount n).1.amount_paid)
         ∧ (inv.add_payment items pays amount n).1.payment_status
           = paymentStatusRule (inv.add_payment items pays amount n).1.amount_paid
               (inv.add_payment items pays amount n).1.total) := by
  unfold PurchaseInvoice.add_payment
  split_ifs with h1 h2 h3
  · exact ⟨by simp [h1], fun _ => ⟨rfl, rfl⟩, by simp⟩
  · exact ⟨by simp [h2], fun _ => ⟨rfl, rfl⟩, by simp⟩
  · exact ⟨by simp [h3], fun _ => ⟨rfl, rfl⟩, by simp⟩
  · dsimp only
    refine ⟨by simp [h1, h2, h3], by simp, ?_⟩
    intro _
    refine ⟨rfl, ?_, ?_, ?_⟩
    · rw [PurchaseInvoice.purchase_totals_amount_paid]
    · rw [PurchaseInvoice.purchase_totals_remaining, PurchaseInvoice.purchase_totals_total,
          PurchaseInvoice.purchase_totals_amount_paid]
    · rw [PurchaseInvoice.purchase_totals_status, PurchaseInvoice.purchase_totals_total,
          PurchaseInvoice.purchase_totals_amount_paid]

/-- C6: `add_payment` (sales and purchase) fails and leaves the invoice
and the payment records unchanged exactly when the invoice is not a
loan, or the amount is non-positive, or `amount_paid + amount > total`;
otherwise it appends one loan-payment record of that amount, increases
`amount_paid` by exactly the amount, and refreshes
`remaining_balance`/`payment_status` by the loan rule. -/
theorem claim_C6_add_payment :
    ∀ (inv : SalesInvoice) (items : List SalesInvoiceItem)
      (pays : List SalesLoanPayment) (amount : Money) (n : String)
      (pinv : PurchaseInvoice) (pitems : List PurchaseInvoiceItem)
      (ppays : List PurchaseLoanPayment) (pamount : Money) (pn : String),
      (((inv.add_payment items pays amount n).2.2.isSome
          ↔ (inv.is_loan = false ∨ amount ≤ 0 ∨ inv.amount_paid + amount > inv.total))
       ∧ ((inv.add_payment items pays amount n).2.2.isSome →
            (inv.add_payment items pays amount n).1 = inv
            ∧ (inv.add_payment items pays amount n).2.1 = pays)
       ∧ ((inv.add_payment items pays amount n).2.2 = none →
            (inv.add_payment items pays amount n).2.1
              = pays ++ [{ amount := amount, notes := n }]
            ∧ (inv.add_payment items pays amount n).1.amount_paid
              = inv.amount_paid + amount
            ∧ (inv.add_payment items pays amount n).1.remaining_balance
              = max 0 ((inv.add_payment items pays amount n).1.total
                  - (inv.add_payment items pays amount n).1.amount_paid)
            ∧ (inv.add_payment items pays amount n).1.payment_status
              = paymentStatusRule (inv.add_payment items pays amount n).1.amount_paid
                  (inv.add_payment items pays amount n).1.total))
      ∧ (((pinv.add_payment pitems ppays pamount pn).2.2.isSome
          ↔ (pinv.is_loan = false ∨ pamount ≤ 0
              ∨ pinv.amount_paid + pamount > pinv.total))
       ∧ ((pinv.add_payment pitems ppays pamount pn).2.2.isSome →
            (pinv.add_payment pitems ppays pamount pn).1 = pinv
            ∧ (pinv.add_payment pitems ppays pamount pn).2.1 = ppays)
       ∧ ((pinv.add_payment pitems ppays pamount pn).2.2 = none →
            (pinv.add_payment pitems ppays pamount pn).2.1
              = ppays ++ [{ amount := pamount, notes := pn }]
            ∧ (pinv.add_payment pitems ppays pamount pn).1.amount_paid
              = pinv.amount_paid + pamount
            ∧ (pinv.add_payment pitems ppays pamount pn).1.remaining_balance
              = max 0 ((pinv.add_payment pitems ppays pamount pn).1.total
                  - (pinv.add_payment pitems ppays pamount pn).1.amount_paid)
            ∧ (pinv.add_payment pitems ppays pamount pn).1.payment_status
              = paymentStatusRule (pinv.add_payment pitems ppays pamount pn).1.amount_paid
                  (pinv.add_payment pitems ppays pamount pn).1.total)) :=
  fun inv items pays amount n pinv pitems ppays pamount pn =>
    ⟨inv.add_payment_spec items pays amount n,
     pinv.purchase_add_payment_spec pitems ppays pamount pn⟩

/-- C6 instantiated: paying 4 against a loan of total 10 with 3 already
paid succeeds, appends the one record, raises `amount_paid` to 7 and
leaves the invoice `partial`; paying −1 on the purchase side fails. -/
theorem claim_C6_witness :
    (c6Inv.add_payment c6Items [] 4 "").2.1 = [{ amount := 4, notes := "" }]
    ∧ (c6Inv.add_payment c6Items [] 4 "").1.amount_paid = 7
    ∧ (c6Inv.add_payment c6Items [] 4 "").1.payment_status = "partial"
    ∧ (c6PInv.add_payment c6PItems [] (-1) "").2.2.isSome = true := by
  have h := claim_C6_add_payment c6Inv c6Items [] 4 "" c6PInv c6PItems [] (-1) ""
  have hs := h.1.2.2 (by decide)
  refine ⟨by simpa using hs.1, ?_, ?_, ?_⟩
  · rw [hs.2.1]; decide
  · rw [hs.2.2.2, hs.2.1,
        show (c6Inv.add_payment c6Items [] 4 "").1.total = 10 by decide,
        show c6Inv.amount_paid = 3 by decide]
    decide
  · exact h.2.1.mpr (Or.inr (Or.inl (by decide)))

theorem customer_signed_eq (t : CustomerLedgerTransaction)
    (h : t.transaction_type = "sale" ∨ t.transaction_type = "payment"
      ∨ t.transaction_type = "return" ∨ t.transaction_type = "discount"
      ∨ t.transaction_type = "interest" ∨ t.transaction_type = "adjustment") :
    (if t.transaction_type = "sale" ∨ t.transaction_type = "interest" then t.amount
     else -t.amount) = specSignedContribution t.transaction_type t.amount := by
  rcases h with h | h | h | h | h | h <;> rw [h] <;> simp [specSignedContribution]

theorem supplier_signed_eq (t : SupplierLedgerTransaction)
    (h : t.transaction_type = "purchase" ∨ t.transaction_type = "payment"
      ∨ t.transaction_type = "return" ∨ t.transaction_type = "discount"
      ∨ t.transaction_type = "interest" ∨ t.transaction_type = "adjustment") :
    (if t.transaction_type = "purchase" ∨ t.transaction_type = "interest" then t.amount
     else -t.amount) = specSignedContribution t.transaction_type t.amount := by
  rcases h with h | h | h | h | h | h <;> rw [h] <;> simp [specSignedContribution]

/-- C7: after `update_balance`, a ledger's `current_balance` equals the
signed sum of its transactions (sale/purchase and interest add; payment,
return, discount and adjustment subtract), `total_sales` (resp.
`total_purchases`) equals the sum of the sale (purchase) transactions,
`total_payments` equals the sum of the payment transactions, and running
`update_balance` again over the same log yields the same ledger. -/
theorem claim_C7_ledger :
    ∀ (cl : CustomerLedger) (cts : List CustomerLedgerTransaction)
      (sl : SupplierLedger) (sts : List SupplierLedgerTransaction),
      (∀ t ∈ cts, t.transaction_type = "sale" ∨ t.transaction_type = "payment"
        ∨ t.transaction_type = "return" ∨ t.transaction_type = "discount"
        ∨ t.transaction_type = "interest" ∨ t.transaction_type = "adjustment") →
      (∀ t ∈ sts, t.transaction_type = "purchase" ∨ t.transaction_type = "payment"
        ∨ t.transaction_type = "return" ∨ t.transaction_type = "discount"
        ∨ t.transaction_type = "interest" ∨ t.transaction_type = "adjustment") →
      ((cl.update_balance cts).current_balance
         = (cts.map (fun t => specSignedContribution t.transaction_type t.amount)).sum
       ∧ (cl.update_balance cts).total_sales
         = ((cts.filter (fun t => t.transaction_type = "sale")).map (fun t => t.amount)).sum
       ∧ (cl.update_balance cts).total_payments
         = ((cts.filter (fun t => t.transaction_type = "payment")).map (fun t => t.amount)).sum
       ∧ (cl.update_balance cts).update_balance cts = cl.update_balance cts)
      ∧ ((sl.update_balance sts).current_balance
         = (sts.map (fun t => specSignedContribution t.transaction_type t.amount)).sum
       ∧ (sl.update_balance sts).total_purchases
         = ((sts.filter (fun t => t.transaction_type = "purchase")).map (fun t => t.amount)).sum
       ∧ (sl.update_balance sts).total_payments
         = ((sts.filter (fun t => t.transaction_type = "payment")).map (fun t => t.amount)).sum
       ∧ (sl.update_balance sts).update_balance sts = sl.update_balance sts) := by
  intro cl cts sl sts hc hs
  refine ⟨⟨?_, rfl, rfl, rfl⟩, ⟨?_, rfl, rfl, rfl⟩⟩
  · show (cts.map (fun t =>
      if t.transaction_type = "sale" ∨ t.transaction_type = "interest" then t.amount
      else -t.amount)).sum = _
    exact congrArg List.sum
      (List.map_congr_left (fun t ht => customer_signed_eq t (hc t ht)))
  · show (sts.map (fun t =>
      if t.transaction_type = "purchase" ∨ t.transaction_type = "interest" then t.amount
      else -t.amount)).sum = _
    exact congrArg List.sum
      (List.map_congr_left (fun t ht => supplier_signed_eq t (hs t ht)))

/-- C7 instantiated at four customer transactions (sale 100, payment 30,
discount 5, interest 2) and four supplier transactions (purchase 80,
payment 50, adjustment 10, return 4). -/
theorem claim_C7_witness :
    (emptyCustomerLedger.update_balance c7Txns).current_balance
      = (c7Txns.map (fun t => specSignedContribution t.transaction_type t.amount)).sum
    ∧ (emptyCustomerLedger.update_balance c7Txns).current_balance = 67
    ∧ (emptyCustomerLedger.update_balance c7Txns).total_sales = 100
    ∧ (emptyCustomerLedger.update_balance c7Txns).total_payments = 30
    ∧ ((emptyCustomerLedger.update_balance c7Txns).update_balance c7Txns
        = emptyCustomerLedger.update_balance c7Txns)
    ∧ (emptySupplierLedger.update_balance c7STxns).current_balance = 16
    ∧ (emptySupplierLedger.update_balance c7STxns).total_purchases = 80
    ∧ (emptySupplierLedger.update_balance c7STxns).total_payments = 50 := by
  have h := claim_C7_ledger emptyCustomerLedger c7Txns emptySupplierLedger c7STxns
    (by decide) (by decide)
  exact ⟨h.1.1, by decide, by decide, by decide, h.1.2.2.2, by decide, by decide, by decide⟩

theorem salesRetryLoop_no_validation :
    ∀ (ds : List SalesItemInput) (s : Store) (invId : Nat) (inv : SalesInvoice)
      (m : String) (s' : Store),
      salesRetryLoop s invId inv ds ≠ .error (.validation m, s') := by
  intro ds
  induction ds with
  | nil =>
    intro s invId inv m s' h
    simp [salesRetryLoop] at h
  | cons d rest ih =>
    intro s invId inv m s' h
    unfold salesRetryLoop at h
    split at h
    · simp at h
    · split at h
      · simp at h
      · exact ih _ _ _ _ _ h

theorem salesRetry_no_validation (s : Store) (input : SalesInput) (r m : String)
    (s' : Store) : salesRetry s input r ≠ .error (.validation m, s') := by
  intro h
  unfold salesRetry at h
  dsimp only at h
  split at h
  · simp at h
  · split at h
    next heq =>
      cases h
      exact salesRetryLoop_no_validation _ _ _ _ _ _ heq
    next => simp at h

/-- C5: whenever invoice creation (sales or purchase) fails with a
`ValidationError` — insufficient stock, malformed or non-positive price,
or a loan `amount_paid` exceeding the computed total — the store the
caller observes is exactly the one it started with: no invoice, no line
items, no stock change and no ledger transaction survives
(`transaction.atomic` rollback). -/
theorem claim_C5_atomicity :
    (∀ (s : Store) (input : SalesInput) (u r m : String) (s' : Store),
        createSalesInvoice s input u r = .error (.validation m, s') → s' = s)
    ∧ (∀ (s : Store) (input : PurchaseInput) (u m : String) (s' : Store),
        createPurchaseInvoice s input u = .error (.validation m, s') → s' = s) := by
  constructor
  · intro s input u r m s' h
    unfold createSalesInvoice at h
    split at h
    · simp at h
    · dsimp only at h
      split at h
      · simp at h
      · exact absurd h (salesRetry_no_validation _ _ _ _ _)
      · simp at h
        exact h.2.symm
  · intro s input u m s' h
    unfold createPurchaseInvoice at h
    split at h
    · simp at h
    · dsimp only at h
      split at h
      · simp at h
      · simp at h
        exact h.2.symm

/-- C5 instantiated: requesting five widgets with one in stock fails the
sales creation, and a zero price fails the purchase creation, each
returning the untouched initial store. -/
theorem claim_C5_witness :
    createSalesInvoice c5Store c5Input "uuuuuuuu" "abcd1234"
      = .error (.validation "Error creating sales invoice: Insufficient stock for Widget",
          c5Store)
    ∧ createPurchaseInvoice c5Store c5PInput "uuuuuuuu"
      = .error (.validation
          "Error creating purchase invoice: Price must be greater than 0 for Widget",
          c5Store)
    ∧ c5Store = c5Store := by
  refine ⟨by decide, by decide, ?_⟩
  exact claim_C5_atomicity.1 c5Store c5Input "uuuuuuuu" "abcd1234"
    "Error creating sales invoice: Insufficient stock for Widget" c5Store (by decide)

/-- C10: when the first insert of a sales invoice hits a display-id
collision (`IntegrityError`), the retry path creates the invoice and its
line items without the insufficient-stock and positive-price checks and
outside the atomic block: with one widget in stock, a request for five
succeeds under the retried `SALE-…` id and leaves the stock at −4. -/
theorem claim_C10_retry_bypasses_checks :
    c10Widget.quantity = 1
    ∧ c10Input.items = [{ product := 0, quantity := 5, price := some 2 }]
    ∧ c10Widget.quantity < 5
    ∧ (c10Store.salesInvoices.any (fun q => q.2.invoice_id
        = generateSalesInvoiceId ["Widget"] c10Input.customerName "uuuuuuuu")) = true
    ∧ ((createdInvoice (createSalesInvoice c10Store c10Input "uuuuuuuu" "abcd1234")).map
        (fun inv => inv.invoice_id)) = some "SALE-ABCD1234"
    ∧ ((createdStore (createSalesInvoice c10Store c10Input "uuuuuuuu" "abcd1234")).bind
        (fun s => lookupProduct s 0)).map (fun p => p.quantity) = some (-4)
    ∧ (-4 : Int) < 0 := by decide

theorem pyTake_length_le (s : String) (n : Nat) : (pyTake s n).length ≤ n := by
  show (s.data.take n).length ≤ n
  rw [List.length_take]
  exact min_le_left _ _

theorem pyUpper_length (s : String) : (pyUpper s).length = s.length := by
  show (s.data.map Char.toUpper).length = s.data.length
  exact List.length_map _ _

theorem generateSalesInvoiceId_length_le (names : List String) (c u : String) :
    (generateSalesInvoiceId names c u).length ≤ 50 := by
  unfold generateSalesInvoiceId
  dsimp only
  split_ifs with h1 h2
  · rw [String.length_append, pyUpper_length]
    have := pyTake_length_le u 8
    have h5 : ("SALE-" : String).length = 5 := by decide
    omega
  · omega
  · omega

theorem generatePurchaseInvoiceId_length_le (names : List String) (sn u : String) :
    (generatePurchaseInvoiceId names sn u).length ≤ 50 := by
  unfold generatePurchaseInvoiceId
  dsimp only
  split_ifs with h1 h2
  · rw [String.length_append, pyUpper_length]
    have := pyTake_length_le u 8
    have h5 : ("PUR-" : String).length = 4 := by decide
    omega
  · omega
  · omega


theorem isSome_option_map {α β : Type} (o : Option α) (f : α → β) :
    (o.map f).isSome = o.isSome := by
  cases o <;> rfl

theorem find?_key_isSome_map (ps : List (Nat × Product)) (pid x : Nat) (p : Product) :
    ((ps.map (fun q => if q.1 = pid then (pid, p) else q)).find?
        (fun q => q.1 = x)).isSome
      = (ps.find? (fun q => q.1 = x)).isSome := by
  induction ps with
  | nil => rfl
  | cons a rest ih =>
    simp only [List.map_cons]
    by_cases hq : a.1 = pid
    · rw [if_pos hq]
      by_cases hx : a.1 = x
      · rw [List.find?_cons_of_pos _ (by simp [hq ▸ hx]),
            List.find?_cons_of_pos _ (by simp [hx])]
        rfl
      · rw [List.find?_cons_of_neg _ (by simp [hq ▸ hx]),
            List.find?_cons_of_neg _ (by simp [hx])]
        exact ih
    · rw [if_neg hq]
      by_cases hx : a.1 = x
      · rw [List.find?_cons_of_pos _ (by simp [hx]),
            List.find?_cons_of_pos _ (by simp [hx])]
      · rw [List.find?_cons_of_neg _ (by simp [hx]),
            List.find?_cons_of_neg _ (by simp [hx])]
        exact ih

theorem lookupProduct_updateProduct_isSome (s : Store) (pid x : Nat) (p : Product) :
    (lookupProduct (updateProduct s pid p) x).isSome = (lookupProduct s x).isSome := by
  unfold lookupProduct updateProduct
  rw [isSome_option_map, isSome_option_map]
  exact find?_key_isSome_map s.products pid x p

theorem lookupProduct_setSalesInvoice (s : Store) (i : Nat) (inv : SalesInvoice)
    (x : Nat) : lookupProduct (setSalesInvoice s i inv) x = lookupProduct s x := rfl

theorem lookupProduct_setPurchaseInvoice (s : Store) (i : Nat) (inv : PurchaseInvoice)
    (x : Nat) : lookupProduct (setPurchaseInvoice s i inv) x = lookupProduct s x := rfl

theorem salesItemStep_lookup_isSome (s : Store) (invId : Nat) (inv : SalesInvoice)
    (pid : Nat) (product : Product) (qty : Int) (price : Money) (x : Nat) :
    (lookupProduct (salesItemStep s invId inv pid product qty price).1 x).isSome
      = (lookupProduct s x).isSome := by
  unfold salesItemStep
  dsimp only
  rw [lookupProduct_setSalesInvoice, lookupProduct_updateProduct_isSome]
  rfl

theorem salesItemStep_invoice_id (s : Store) (invId : Nat) (inv : SalesInvoice)
    (pid : Nat) (product : Product) (qty : Int) (price : Money) :
    (salesItemStep s invId inv pid product qty price).2.invoice_id = inv.invoice_id := by
  unfold salesItemStep
  dsimp only
  exact inv.calculate_totals_invoice_id _

theorem salesRetryLoop_ok :
    ∀ (ds : List SalesItemInput) (s : Store) (invId : Nat) (inv : SalesInvoice),
      (∀ d ∈ ds, (lookupProduct s d.product).isSome = true ∧ d.price.isSome = true) →
      ∃ s2 inv2, salesRetryLoop s invId inv ds = .ok (s2, inv2)
        ∧ inv2.invoice_id = inv.invoice_id := by
  intro ds
  induction ds with
  | nil => exact fun s invId inv _ => ⟨s, inv, rfl, rfl⟩
  | cons d rest ih =>
    intro s invId inv hall
    obtain ⟨hp, hpr⟩ := hall d (List.mem_cons_self d rest)
    obtain ⟨product, hprod⟩ := Option.isSome_iff_exists.mp hp
    obtain ⟨price, hprice⟩ := Option.isSome_iff_exists.mp hpr
    unfold salesRetryLoop
    rw [hprod, hprice]
    dsimp only
    obtain ⟨s2, inv2, heq, hid⟩ :=
      ih (salesItemStep s invId inv d.product product d.quantity price).1 invId
        (salesItemStep s invId inv d.product product d.quantity price).2
        (fun d' hd' =>
          ⟨(salesItemStep_lookup_isSome s invId inv d.product product d.quantity price
              d'.product).trans (hall d' (List.mem_cons_of_mem d hd')).1,
           (hall d' (List.mem_cons_of_mem d hd')).2⟩)
    exact ⟨s2, inv2, heq,
      hid.trans (salesItemStep_invoice_id s invId inv d.product product d.quantity price)⟩

theorem salesBody_integrity (s : Store) (iid : String) (input : SalesInput)
    (h : s.salesInvoices.any (fun q => q.2.invoice_id = iid) = true) :
    salesBody s iid input = .error .integrity := by
  unfold salesBody
  rw [if_pos h]

theorem salesRetry_ok (s : Store) (input : SalesInput) (r : String)
    (hfresh : s.salesInvoices.any
      (fun q => q.2.invoice_id = "SALE-" ++ pyUpper (pyTake r 8)) = false)
    (hitems : ∀ d ∈ input.items,
      (lookupProduct s d.product).isSome = true ∧ d.price.isSome = true) :
    ∃ s2 inv2, salesRetry s input r = .ok (s2, inv2)
      ∧ inv2.invoice_id = "SALE-" ++ pyUpper (pyTake r 8) := by
  unfold salesRetry
  dsimp only
  rw [if_neg (by rw [hfresh]; exact Bool.false_ne_true)]
  obtain ⟨s2, inv2, heq, hid⟩ := salesRetryLoop_ok input.items
    { s with
        salesInvoices := s.salesInvoices ++
          [(s.nextSalesId, initialSalesInvoice ("SALE-" ++ pyUpper (pyTake r 8)) input)],
        nextSalesId := s.nextSalesId + 1 }
    s.nextSalesId (initialSalesInvoice ("SALE-" ++ pyUpper (pyTake r 8)) input)
    (fun d hd => hitems d hd)
  rw [heq]
  refine ⟨_, _, rfl, ?_⟩
  exact (inv2.calculate_totals_invoice_id _).trans hid

/-- C9 amended: every generated display id (sales and purchase: composed
form, fixed-width fallback, random-token fallback) is at most 50
characters; on a uniqueness violation at insert time the *sales* path
retries once with a freshly drawn `SALE-…` id and succeeds (for any
request whose products exist and whose prices parse), while the purchase
path has no retry — its `IntegrityError` is rolled back and surfaced as
a `ValidationError` (see the counterexample). -/
theorem claim_C9_amended :
    (∀ (names : List String) (c u : String),
      (generateSalesInvoiceId names c u).length ≤ 50)
    ∧ (∀ (names : List String) (sn u : String),
      (generatePurchaseInvoiceId names sn u).length ≤ 50)
    ∧ (∀ (s : Store) (input : SalesInput) (u r : String) (names : List String),
        salesProductNames s input.items = some names →
        s.salesInvoices.any (fun q => q.2.invoice_id
          = generateSalesInvoiceId names input.customerName u) = true →
        s.salesInvoices.any (fun q => q.2.invoice_id
          = "SALE-" ++ pyUpper (pyTake r 8)) = false →
        (∀ d ∈ input.items,
          (lookupProduct s d.product).isSome = true ∧ d.price.isSome = true) →
        ∃ s2 inv2, createSalesInvoice s input u r = .ok (s2, inv2)
          ∧ inv2.invoice_id = "SALE-" ++ pyUpper (pyTake r 8)) := by
  refine ⟨generateSalesInvoiceId_length_le, generatePurchaseInvoiceId_length_le, ?_⟩
  intro s input u r names hnames hcoll hfresh hitems
  unfold createSalesInvoice
  rw [hnames]
  dsimp only
  rw [salesBody_integrity s (generateSalesInvoiceId names input.customerName u) input hcoll]
  exact salesRetry_ok s input r hfresh hitems

/-- C9 counterexample: the store already holds the composed id
`P: Widget ← Acme` and no random `PUR-…` id at all, so a unique retry id
was available; yet purchase creation surfaces the wrapped
`IntegrityError` as a `ValidationError` without creating anything — the
claimed one-retry recovery does not exist on the purchase path. -/
theorem claim_C9_counterexample :
    c9PStore.purchaseInvoices.any (fun q => q.2.invoice_id
      = generatePurchaseInvoiceId ["Widget"] c9PInput.supplierName "uuuuuuuu") = true
    ∧ c9PStore.purchaseInvoices.any (fun q => q.2.invoice_id
      = "PUR-" ++ pyUpper (pyTake "abcd1234" 8)) = false
    ∧ createPurchaseInvoice c9PStore c9PInput "uuuuuuuu"
      = .error (.validation "Error creating purchase invoice: IntegrityError", c9PStore)
    := by decide

/-- C9 amended, instantiated: a sale colliding with the stored
`S: Widget → Bob` id is retried and succeeds under `SALE-ABCD1234`. -/
theorem claim_C9_witness :
    ∃ s2 inv2, createSalesInvoice c9Store c9Input "uuuuuuuu" "abcd1234" = .ok (s2, inv2)
      ∧ inv2.invoice_id = "SALE-" ++ pyUpper (pyTake "abcd1234" 8) :=
  claim_C9_amended.2.2 c9Store c9Input "uuuuuuuu" "abcd1234" ["Widget"]
    (by decide) (by decide) (by decide) (by decide)


/-- C8: creating a product with a non-null supplier, quantity Q > 0 and
cost price p auto-creates a purchase invoice with exactly one line item
(quantity Q, price p), invoice total p × Q, leaves the product's stored
quantity unchanged at Q (the stock adjustment is skipped), and sets
`is_loan` exactly when the caller-supplied amount paid is below p × Q.
The two `(∀ … ∈ …)` hypotheses say the store's surrogate keys sit below
its id counters — true of every store the workflows build. -/
theorem claim_C8_auto_invoice :
    ∀ (s : Store) (pd : ProductInput) (ts : String) (uids : List String)
      (sid : Nat) (iid : String),
      pd.supplier = some sid → 0 < pd.quantity →
      freshAutoPurchaseId (s.purchaseInvoices.map (fun q => q.2.invoice_id)) ts uids
        = some iid →
      (∀ q ∈ s.products, q.1 < s.nextProductId) →
      (∀ r ∈ s.purchaseItems, r.invoice < s.nextPurchaseId) →
      ∃ s2 product inv,
        ProductViewSet.perform_create s pd ts uids = some (s2, product, some inv)
        ∧ ((s2.purchaseItems.filter (fun r => r.invoice = s.nextPurchaseId)).map
            (fun r => (r.item.quantity, r.item.price))) = [(pd.quantity, pd.price)]
        ∧ inv.total = pd.price * pd.quantity
        ∧ (lookupProduct s2 s.nextProductId).map (fun p => p.quantity)
            = some pd.quantity
        ∧ (∀ a, pd.amount_paid = some a →
            (inv.is_loan = true ↔ a < pd.price * pd.quantity))
        ∧ inv.invoice_id = iid := by
  intro s pd ts uids sid iid hsupp hq hfresh hkeys hrows
  unfold ProductViewSet.perform_create
  dsimp only
  split
  case isFalse hcond =>
    refine absurd ⟨?_, ?_⟩ hcond
    · rw [Product.save_supplier]
      dsimp only
      rw [hsupp]
      rfl
    · rw [Product.save_quantity]
      exact hq
  case isTrue hcond =>
    rw [hfresh]
    dsimp only
    refine ⟨_, _, _, rfl, ?_, ?_, ?_, ?_, ?_⟩
    · simp only [setPurchaseInvoice]
      rw [List.filter_append,
          List.filter_eq_nil_iff.mpr (fun r hr => by
            simp only [decide_eq_true_eq]
            exact Nat.ne_of_lt (hrows r hr))]
      simp [Product.save_quantity, Product.save_price]
    · rw [PurchaseInvoice.purchase_totals_total]
      simp only [purchaseItemsOf, setPurchaseInvoice]
      rw [List.filter_append,
          List.filter_eq_nil_iff.mpr (fun r hr => by
            simp only [decide_eq_true_eq]
            exact Nat.ne_of_lt (hrows r hr))]
      simp [Product.save_quantity, Product.save_price, Int.mul_comm]
    · simp only [lookupProduct, setPurchaseInvoice]
      rw [List.find?_append,
          List.find?_eq_none.mpr (fun q hq2 => by
            simp only [decide_eq_true_eq]
            exact Nat.ne_of_lt (hkeys q hq2)),
          Option.none_or]
      simp [Product.save_quantity]
    · intro a ha
      rw [PurchaseInvoice.purchase_totals_is_loan, PurchaseInvoice.purchase_totals_is_loan]
      dsimp only
      rw [ha]
      dsimp only
      simp [Product.save_price, Product.save_quantity]
    · rw [PurchaseInvoice.purchase_totals_invoice_id, PurchaseInvoice.purchase_totals_invoice_id]

/-- C8 instantiated: 100 kg of beans at cost 2.50 (250 hundredths) with
100.00 paid of the 250.00 total — the auto purchase invoice holds one
line item (100 @ 250), total 25000, the product keeps quantity 100, and
the invoice is a loan since 10000 < 25000. -/
theorem claim_C8_witness :
    ∃ s2 product inv,
      ProductViewSet.perform_create c5Store c8Input "20250101000000" ["abcdef"]
        = some (s2, product, some inv)
      ∧ ((s2.purchaseItems.filter (fun r => r.invoice = c5Store.nextPurchaseId)).map
          (fun r => (r.item.quantity, r.item.price))) = [(c8Input.quantity, c8Input.price)]
      ∧ inv.total = c8Input.price * c8Input.quantity
      ∧ (lookupProduct s2 c5Store.nextProductId).map (fun p => p.quantity)
          = some c8Input.quantity
      ∧ (∀ a, c8Input.amount_paid = some a →
          (inv.is_loan = true ↔ a < c8Input.price * c8Input.quantity))
      ∧ inv.invoice_id = "PUR-20250101000000-ABCDEF" :=
  claim_C8_auto_invoice c5Store c8Input "20250101000000" ["abcdef"] 0
    "PUR-20250101000000-ABCDEF" (by decide) (by decide) (by decide) (by decide) (by decide)
